import Mathlib

/-
  Shallow embedding of the token lifecycle and permission-resolution core of
  the Backend repository (app/services/auth.py, app/services/validation.py,
  app/services/content.py, app/services/user.py, app/routers/auth.py).

  Conventions of the embedding:
  * Python dicts produced by jwt.decode are modelled by the TokenPayload
    structure; a key that may be absent is an Option field, so that
    dict.get(key) is the field itself and "key in dict" is field ≠ none.
  * A JWT is modelled structurally as its claims, its absolute expiry
    (epoch seconds) and the key it was signed with; verifying with a key
    succeeds exactly when that key signed the token (the standard
    HMAC-SHA256 unforgeability assumption used by python-jose).
  * time is an Int of epoch seconds; python-jose treats a token as expired
    exactly when exp < now.
  * database tables are lists of rows; SQLAlchemy .first() is List.find?.
  * an HTTPException is an HttpError value; a Python exception that escapes
    every handler in the modelled code is PyOutcome.uncaught.
  * bcrypt hashing and checking are external effects and are passed in as
    function arguments.
-/

namespace Backend

/-- SECRET_KEY constant of app/services/auth.py. -/
def SECRET_KEY : String := "urielAccessKey"

/-- REFRESH_SECRET_KEY constant of app/services/auth.py. -/
def REFRESH_SECRET_KEY : String := "urielRefreshKey"

/-- ACCESS_TOKEN_EXPIRE_MINUTES constant of app/services/auth.py. -/
def ACCESS_TOKEN_EXPIRE_MINUTES : Int := 10

/-- REFRESH_TOKEN_EXPIRE_MINUTES constant of app/services/auth.py. -/
def REFRESH_TOKEN_EXPIRE_MINUTES : Int := 60

/-- An HTTPException: status code and detail string. -/
structure HttpError where
  status : Nat
  detail : String
deriving DecidableEq

/-- The claims dict carried by a token.  get_tokens always fills both keys;
an arbitrary token presented by a client may lack either, hence Option. -/
structure TokenPayload where
  user_id : Option Int
  super : Option Bool
deriving DecidableEq

/-- A signed JWT, modelled structurally: claims, absolute expiry (epoch
seconds, the exp claim) and the signing key. -/
structure Token where
  data : TokenPayload
  exp : Int
  secret : String
deriving DecidableEq

/-- The two distinguishable failures of jose.jwt.decode:
ExpiredSignatureError and every other JWTError. -/
inductive JoseError where
  | expired
  | invalid
deriving DecidableEq

/-- jose.jwt.decode: the signature is verified first (wrong key is a plain
JWTError), then the exp claim is compared with the current time; a token is
expired exactly when exp < now. -/
def jwt_decode (tok : Token) (key : String) (now : Int) : Except JoseError TokenPayload :=
  if tok.secret ≠ key then .error .invalid
  else if tok.exp < now then .error .expired
  else .ok tok.data

/-- create_token of app/services/auth.py: copy the claims, set
exp := now + expires_delta, sign with the refresh key when is_refresh and
the access key otherwise. -/
def create_token (data : TokenPayload) (now : Int) (expires_delta : Int)
    (is_refresh : Bool) : Token :=
  { data := data
    exp := now + expires_delta
    secret := if is_refresh then REFRESH_SECRET_KEY else SECRET_KEY }

/-- decode_token of app/services/auth.py: decode under the secret selected
by is_refresh, map ExpiredSignatureError and JWTError to the corresponding
HTTPExceptions, and reject a payload with no user_id key. -/
def decode_token (token : Token) (now : Int) (is_refresh : Bool) :
    Except HttpError TokenPayload :=
  match jwt_decode token (if is_refresh then REFRESH_SECRET_KEY else SECRET_KEY) now with
  | .error .expired =>
      if is_refresh then
        .error ⟨403, "Refresh token expired. Please login again"⟩
      else
        .error ⟨401, "Access token expired. Please refresh your token."⟩
  | .error .invalid => .error ⟨403, "Invalid or expired token"⟩
  | .ok payload =>
      match payload.user_id with
      | none => .error ⟨403, "Token is invalid. Please login again"⟩
      | some _ => .ok payload

/-- A row of the users table (app/models/user.py).  Timestamps are epoch
seconds; deleted_at = none means the account is active. -/
structure UserRow where
  id : Int
  username : String
  password : String
  is_superuser : Bool
  last_login : Option Int
  deleted_at : Option Int
deriving DecidableEq

/-- A row of the content_type table (app/models/content.py). -/
structure ContentTypeRow where
  id : Int
  content_name : String
  icon : Option String
deriving DecidableEq

/-- A row of the content_permission table (app/models/content.py). -/
structure ContentPermissionRow where
  id : Int
  name : String
  content_type_id : Int
  action : String
deriving DecidableEq

/-- A row of the users_permission table (app/models/user.py); active is an
Integer column, compared against 1 by the permission check. -/
structure UserPermissionRow where
  user_id : Int
  permission_id : Int
  active : Int
deriving DecidableEq

/-- The database state seen by the modelled services, with the
autoincrement counters of the two tables the code inserts into. -/
structure DB where
  users : List UserRow
  content_types : List ContentTypeRow
  content_permissions : List ContentPermissionRow
  user_permissions : List UserPermissionRow
  next_content_id : Int
  next_permission_id : Int
deriving DecidableEq

/-- UserService.get_user_by_username of app/services/user.py: the login
lookup, filtering on username and deleted_at IS NULL; raises NoResultFound
when no row matches. -/
def get_user_by_username (db : DB) (username : String) : Except String UserRow :=
  match db.users.find? (fun u => u.username == username && u.deleted_at == none) with
  | none => .error ("NoResultFound")
  | some u => .ok u

/-- UserService.get_user_by_id of app/services/user.py: lookup by primary
key with no deleted_at filter; raises NoResultFound when absent. -/
def get_user_by_id (db : DB) (id : Int) : Except String UserRow :=
  match db.users.find? (fun u => u.id == id) with
  | none => .error ("NoResultFound")
  | some u => .ok u

/-- authenticate_user of app/services/auth.py: None both when the username
lookup raises NoResultFound and when the bcrypt check fails.  checkpw is
the external bcrypt.checkpw, taking the plaintext then the stored hash. -/
def authenticate_user (checkpw : String → String → Bool) (db : DB)
    (username password : String) : Option UserRow :=
  match get_user_by_username db username with
  | .error _ => none
  | .ok user => if checkpw password user.password then some user else none

/-- get_tokens of app/services/auth.py: mint the access/refresh pair from
the user row, claims user_id and super, lifetimes in minutes. -/
def get_tokens (user : UserRow) (now : Int) : Token × Token :=
  (create_token ⟨some user.id, some user.is_superuser⟩ now
      (ACCESS_TOKEN_EXPIRE_MINUTES * 60) false,
   create_token ⟨some user.id, some user.is_superuser⟩ now
      (REFRESH_TOKEN_EXPIRE_MINUTES * 60) true)

/-- Outcome of a request handler: a value, an HTTPException, or a Python
exception escaping every modelled handler (surfacing as a 500 upstream). -/
inductive PyOutcome (α : Type) where
  | ok : α → PyOutcome α
  | httpError : HttpError → PyOutcome α
  | uncaught : String → PyOutcome α
deriving DecidableEq

/-- refresh_access_token of app/services/auth.py.  Only JWTError is caught
(mapped to 403); the HTTPException for a missing user_id claim propagates,
and NoResultFound from the user lookup escapes uncaught. -/
def refresh_access_token (refresh_tok : Token) (db : DB) (now : Int) :
    PyOutcome Token :=
  match jwt_decode refresh_tok REFRESH_SECRET_KEY now with
  | .error _ =>
      .httpError ⟨403, "Refresh token expired or invalid. Please log in again."⟩
  | .ok payload =>
      match payload.user_id with
      | none => .httpError ⟨403, "Invalid refresh token"⟩
      | some uid =>
          match get_user_by_id db uid with
          | .error e => .uncaught e
          | .ok user => .ok (get_tokens user now).1

/-- The response body of POST /login as far as the core is concerned: the
two minted tokens and the fresh csrf token placed in the cookies. -/
structure LoginResponse where
  access_token : Token
  refresh_tok : Token
  csrf_token : String
deriving DecidableEq

namespace Routers

/-- The login handler of app/routers/auth.py: authenticate (404 with a
single detail string on any failure), persist last_login := now, mint the
token pair, return them with the csrf token (the uuid4 value is passed in
as an argument, being external randomness).  The updated user table is
returned alongside the response. -/
def login (checkpw : String → String → Bool) (db : DB)
    (username password : String) (now : Int) (csrf : String) :
    PyOutcome (LoginResponse × DB) :=
  match authenticate_user checkpw db username password with
  | none => .httpError ⟨404, "Invalid credentials"⟩
  | some user =>
      let db2 := { db with
        users := db.users.map (fun u =>
          if u.id == user.id then { u with last_login := some now } else u) }
      let pair := get_tokens user now
      .ok (⟨pair.1, pair.2, csrf⟩, db2)

/-- The refresh handler of app/routers/auth.py: 403 when the cookie is
missing, then decode_token under the refresh secret, then
refresh_access_token; HTTPExceptions are re-raised unchanged and anything
else keeps escaping. -/
def refresh_route (refresh_cookie : Option Token) (db : DB) (now : Int) :
    PyOutcome Token :=
  match refresh_cookie with
  | none => .httpError ⟨403, "Refresh token missing"⟩
  | some tok =>
      match decode_token tok now true with
      | .error e => .httpError e
      | .ok _ => refresh_access_token tok db now

end Routers

/-- Python truthiness of an optional bool, as in the conditions on
token_payload.get applied to the super key. -/
def pyTruthy : Option Bool → Bool
  | some b => b
  | none => false

/-- Decimal integer parsing as done by Python int() and by the pydantic
int coercion of PermissionResponse, on an optional minus sign followed by
digits; none models the ValueError / ValidationError. -/
def digitsToNat? (l : List Char) : Option Nat :=
  if l.isEmpty then none
  else if l.all Char.isDigit then
    some (l.foldl (fun a c => a * 10 + (c.toNat - 48)) 0)
  else none

/-- Decimal integer parsing on a string, signed. -/
def intOfString? (s : String) : Option Int :=
  match s.data with
  | '-' :: rest => (digitsToNat? rest).map (fun n => -(n : Int))
  | l => (digitsToNat? l).map (fun n => (n : Int))

/-- The inbound request surface read by app/services/validation.py: the
access_token cookie (a structural token; none models a missing or empty
cookie), the csrf_token cookie, the X-CSRF-Token and X-Content headers,
and the HTTP method. -/
structure Request where
  access_token : Option Token
  csrf_cookie : Option String
  csrf_header : Option String
  x_content : Option String
  method : String
deriving DecidableEq

/-- HTTP_METHOD_TO_CRUD_ACTION of app/services/validation.py, as the
lookup dict.get performs on it. -/
def HTTP_METHOD_TO_CRUD_ACTION (m : String) : Option String :=
  if m == "POST" then some ("C")
  else if m == "GET" then some ("R")
  else if m == "PUT" then some ("U")
  else if m == "PATCH" then some ("U")
  else if m == "DELETE" then some ("D")
  else none

/-- validate_access_and_csrf of app/services/validation.py: 403 when the
access cookie is absent; 403 when the X-CSRF-Token header and the
csrf_token cookie differ as optional strings (two absent values compare
equal); otherwise the result of decoding the access token. -/
def validate_access_and_csrf (req : Request) (now : Int) :
    Except HttpError TokenPayload :=
  match req.access_token with
  | none => .error ⟨403, "Access token missing from validation"⟩
  | some tok =>
      if req.csrf_header ≠ req.csrf_cookie then
        .error ⟨403, "Invalid CSRF token from validation"⟩
      else decode_token tok now false

/-- The PermissionResponse schema of app/schemas/content.py; optional
fields default to none. -/
structure PermissionResponse where
  authorized : Bool
  permission_id : Option Int
  user_id : Option Int
  content_type_id : Option Int
  action : Option String
deriving DecidableEq

/-- ContentService.check_user_permission of app/services/content.py.  The
user_id argument is the raw token_payload.get result, so a none matches no
row (the SQL comparison with NULL).  The first query takes the id of the
first content_permission row matching the content type and action; Python
falsiness also rejects a row id equal to 0.  The second query requires an
active = 1 grant row; its absence and the permission's absence both raise
NoResultFound, with different messages. -/
def check_user_permission (user_id : Option Int) (content_type : Int)
    (action : String) (db : DB) : Except String PermissionResponse :=
  match (db.content_permissions.find? (fun p =>
      p.content_type_id == content_type && p.action == action)).map
      (fun p => p.id) with
  | none => .error ("Permission not found")
  | some pid =>
      if pid == 0 then .error ("Permission not found")
      else
        match db.user_permissions.find? (fun up =>
            some up.user_id == user_id && up.permission_id == pid &&
            up.active == 1) with
        | none => .error ("This request required permission.")
        | some _ => .ok ⟨true, some pid, user_id, some content_type, some action⟩

/-- validate_permission of app/services/validation.py, the per-request
authorize gate: authenticate and check csrf, require the X-Content header,
map the method to a CRUD action (400 when unmapped), short-circuit to an
authorized response for a truthy super claim (pydantic coercing the raw
header to the int content_type_id; a non-numeric header makes the
uncaught ValidationError escape), otherwise convert the header to an int
(400 on failure) and delegate to check_user_permission, mapping its
NoResultFound to a 403 carrying the exception message. -/
def validate_permission (req : Request) (db : DB) (now : Int) :
    PyOutcome PermissionResponse :=
  match validate_access_and_csrf req now with
  | .error e => .httpError e
  | .ok token_payload =>
      match req.x_content with
      | none => .httpError ⟨403, "Content type missing from validation"⟩
      | some content_type =>
          if content_type == "" then
            .httpError ⟨403, "Content type missing from validation"⟩
          else
            match HTTP_METHOD_TO_CRUD_ACTION req.method with
            | none => .httpError ⟨400, "Invalid HTTP method"⟩
            | some action =>
                if pyTruthy token_payload.super then
                  match intOfString? content_type with
                  | some n =>
                      .ok ⟨true, none, token_payload.user_id, some n, some action⟩
                  | none => .uncaught ("pydantic ValidationError")
                else
                  match intOfString? content_type with
                  | none => .httpError ⟨400, "Invalid content type ID"⟩
                  | some content_type_id =>
                      match check_user_permission token_payload.user_id
                          content_type_id action db with
                      | .error e => .httpError ⟨403, e⟩
                      | .ok r => .ok r

/-- ContentService.CRUD_ACTIONS of app/services/content.py, each entry an
action letter with its display word. -/
def CRUD_ACTIONS : List (String × String) :=
  [("C", "Add"), ("R", "View"), ("U", "Update"), ("D", "Delete")]

/-- ContentService.create_content_permission of app/services/content.py:
insert one content_permission row, its id taken from the autoincrement
counter. -/
def create_content_permission (db : DB) (name : String)
    (content_type_id : Int) (action : String) : DB × ContentPermissionRow :=
  let row : ContentPermissionRow :=
    ⟨db.next_permission_id, name, content_type_id, action⟩
  ({ db with
      content_permissions := db.content_permissions ++ [row]
      next_permission_id := db.next_permission_id + 1 }, row)

/-- ContentService.create_content of app/services/content.py: insert the
content type, then one permission per CRUD_ACTIONS entry, each named the
display word followed by a space and the content name. -/
def create_content (db : DB) (content_name : String) (icon : Option String) :
    DB × ContentTypeRow × List ContentPermissionRow :=
  let c : ContentTypeRow := ⟨db.next_content_id, content_name, icon⟩
  let db1 := { db with
    content_types := db.content_types ++ [c]
    next_content_id := db.next_content_id + 1 }
  let fold := CRUD_ACTIONS.foldl (fun acc ai =>
    let step := create_content_permission acc.1 (ai.2 ++ " " ++ c.content_name) c.id ai.1
    (step.1, acc.2 ++ [step.2])) (db1, [])
  (fold.1, c, fold.2)

/-- The UpdateUserPasswordSchema of app/schemas/user.py. -/
structure UpdateUserPasswordSchema where
  user_id : Int
  password : String
  confirm_password : String
deriving DecidableEq

/-- UserService.update_user_password of app/services/user.py.  The guard
rejects a differing target user only when the payload's super value
compares equal to False (a missing key gives None, and None == False is
false in Python); then mismatched password/confirmation is rejected; then
the target row's password is set to the bcrypt hash (hash_password stands
for the external _hash_password).  Returns the result dict as an Except
and the resulting user table. -/
def update_user_password (hash_password : String → String) (db : DB)
    (token_payload : TokenPayload) (data : UpdateUserPasswordSchema) :
    Except String String × DB :=
  if (some data.user_id != token_payload.user_id) &&
      (token_payload.super == some false) then
    (.error ("Can not change other users password."), db)
  else if data.password ≠ data.confirm_password then
    (.error ("Passwords do not match."), db)
  else
    (.ok ("Password updated successfully."),
     { db with users := db.users.map (fun u =>
        if u.id == data.user_id then
          { u with password := hash_password data.password } else u) })

/- Concrete sample data used to evaluate the definitions on closed inputs. -/

/-- An empty database with fresh autoincrement counters. -/
def emptyDb : DB := ⟨[], [], [], [], 1, 1⟩

/-- An access token for superuser 1, minted at time 0 with a 600 second
lifetime. -/
def tokSuper : Token := create_token ⟨some 1, some true⟩ 0 600 false

/-- An access token for ordinary user 1, minted at time 0 with a 600
second lifetime. -/
def tokUser : Token := create_token ⟨some 1, some false⟩ 0 600 false

/-- A request from superuser 1: matching csrf pair, content type header 5,
method GET. -/
def reqSuper : Request := ⟨some tokSuper, some ("c"), some ("c"), some ("5"), "GET"⟩

/-- A request from ordinary user 1: matching csrf pair, content type
header 5, method GET. -/
def reqUser : Request := ⟨some tokUser, some ("c"), some ("c"), some ("5"), "GET"⟩

/-- A request carrying a valid access token but no csrf cookie and no csrf
header at all. -/
def reqNoCsrf : Request := ⟨some tokUser, none, none, some ("5"), "GET"⟩

/-- The permission row for content type 5, action R. -/
def permViewRow : ContentPermissionRow := ⟨2, "View Stuff", 5, "R"⟩

/-- A database holding the (5, R) permission but no grant for it. -/
def dbPermOnly : DB := ⟨[], [], [permViewRow], [], 6, 3⟩

/-- A database holding the (5, R) permission and an active grant of it to
user 1. -/
def dbPermGrant : DB := ⟨[], [], [permViewRow], [⟨1, 2, 1⟩], 6, 3⟩

/-- C1: for every token payload whose super claim is true, after the
authentication gate passes, validate_permission authorizes any present
numeric content type header under any mapped method for every database
state, so neither the permission nor the grant table influences the
decision. -/
theorem c1_superuser_always_authorized
    (req : Request) (db : DB) (now : Int) (payload : TokenPayload)
    (ct : String) (n : Int) (a : String)
    (hauth : validate_access_and_csrf req now = .ok payload)
    (hsuper : payload.super = some true)
    (hct : req.x_content = some ct)
    (hn : intOfString? ct = some n)
    (ha : HTTP_METHOD_TO_CRUD_ACTION req.method = some a) :
    validate_permission req db now =
      .ok ⟨true, none, payload.user_id, some n, some a⟩ := by
  have hne : (ct == "") = false := by
    cases hc : ct == "" with
    | false => rfl
    | true =>
        have : ct = "" := by simpa using hc
        subst this
        simp [intOfString?, digitsToNat?] at hn
  unfold validate_permission
  rw [hauth, hct]
  simp only [hne, ha, Bool.false_eq_true, if_false]
  simp [hsuper, pyTruthy, hn]

/-- C1 witness: superuser request against the empty database is
authorized for content type 5 and action R. -/
theorem c1_witness :
    validate_permission reqSuper emptyDb 100 =
      .ok ⟨true, none, some 1, some 5, some ("R")⟩ :=
  c1_superuser_always_authorized reqSuper emptyDb 100 ⟨some 1, some true⟩
    ("5") 5 ("R") (by rfl) (by rfl) (by rfl) (by rfl) (by rfl)

/-- C3 counterexample: a request whose csrf header is absent is not
denied when the csrf cookie is also absent: with a perfectly valid access
token, validate_access_and_csrf returns the decoded claims. -/
theorem c3_counterexample :
    reqNoCsrf.csrf_header = none ∧
    validate_access_and_csrf reqNoCsrf 100 = .ok ⟨some 1, some false⟩ :=
  ⟨rfl, rfl⟩

/-- C3 amended: with the access cookie present, the gate denies with 403
exactly when the csrf header differs from the csrf cookie as optional
values — in particular whenever exactly one of the two is present — and
otherwise (two equal values, or both absent) proceeds to decode the access
token; presence of the pair is not separately enforced. -/
theorem c3_amended_csrf_equality_only
    (req : Request) (tok : Token) (now : Int)
    (htok : req.access_token = some tok) :
    (req.csrf_header ≠ req.csrf_cookie →
        validate_access_and_csrf req now =
          .error ⟨403, "Invalid CSRF token from validation"⟩)
  ∧ (req.csrf_header = req.csrf_cookie →
        validate_access_and_csrf req now = decode_token tok now false) := by
  unfold validate_access_and_csrf
  rw [htok]
  dsimp only
  constructor
  · intro h
    rw [if_pos h]
  · intro h
    rw [if_neg (by simp [h])]

/-- C3 amended witness: a mismatched csrf pair is denied, and the
all-absent pair proceeds to a successful decode. -/
theorem c3_amended_witness :
    validate_access_and_csrf ⟨some tokUser, some ("a"), some ("b"), some ("5"), "GET"⟩ 100 =
      .error ⟨403, "Invalid CSRF token from validation"⟩
  ∧ validate_access_and_csrf reqNoCsrf 100 = decode_token tokUser 100 false :=
  ⟨(c3_amended_csrf_equality_only
      ⟨some tokUser, some ("a"), some ("b"), some ("5"), "GET"⟩ tokUser 100 rfl).1
        (by decide),
   (c3_amended_csrf_equality_only reqNoCsrf tokUser 100 rfl).2 rfl⟩

/-- C6: cross-kind rejection — a token minted by create_token with the
access secret never decodes as a refresh token, and a token minted with
the refresh secret never decodes as an access token; both fail with the
JWTError-derived 403. -/
theorem c6_cross_kind_rejection (data : TokenPayload) (now delta now2 : Int) :
    decode_token (create_token data now delta false) now2 true =
      .error ⟨403, "Invalid or expired token"⟩
  ∧ decode_token (create_token data now delta true) now2 false =
      .error ⟨403, "Invalid or expired token"⟩ := by
  constructor <;>
    simp [decode_token, jwt_decode, create_token, SECRET_KEY, REFRESH_SECRET_KEY]

/-- C2: for a non-superuser payload, when the permission row for the
requested content type and action exists (with a Python-truthy id), the
gate answers 403 Forbidden if no active grant row ties the user to that
permission, and authorizes with the full response once such a grant row
exists. -/
theorem c2_grant_decides
    (req : Request) (db : DB) (now : Int) (payload : TokenPayload)
    (ct : String) (ctid : Int) (a : String) (p : ContentPermissionRow)
    (hauth : validate_access_and_csrf req now = .ok payload)
    (hns : pyTruthy payload.super = false)
    (hct : req.x_content = some ct)
    (hn : intOfString? ct = some ctid)
    (ha : HTTP_METHOD_TO_CRUD_ACTION req.method = some a)
    (hp : db.content_permissions.find?
        (fun r => r.content_type_id == ctid && r.action == a) = some p)
    (hpid : (p.id == 0) = false) :
    (db.user_permissions.find? (fun up =>
        some up.user_id == payload.user_id && up.permission_id == p.id &&
        up.active == 1) = none →
      validate_permission req db now =
        .httpError ⟨403, "This request required permission."⟩)
  ∧ (∀ g, db.user_permissions.find? (fun up =>
        some up.user_id == payload.user_id && up.permission_id == p.id &&
        up.active == 1) = some g →
      validate_permission req db now =
        .ok ⟨true, some p.id, payload.user_id, some ctid, some a⟩) := by
  have hne : (ct == "") = false := by
    cases hc : ct == "" with
    | false => rfl
    | true =>
        have : ct = "" := by simpa using hc
        subst this
        simp [intOfString?, digitsToNat?] at hn
  unfold validate_permission
  rw [hauth, hct]
  simp only [hne, ha, Bool.false_eq_true, if_false]
  simp only [hns, Bool.false_eq_true, if_false]
  simp only [hn]
  unfold check_user_permission
  rw [hp]
  simp only [Option.map_some']
  simp only [hpid, Bool.false_eq_true, if_false]
  constructor
  · intro h
    rw [h]
  · intro g h
    rw [h]

/-- C2 witness: against the database holding only the (5, R) permission
the non-superuser GET on content 5 is refused with 403, and against the
database that adds the active grant the same request is authorized. -/
theorem c2_witness :
    validate_permission reqUser dbPermOnly 100 =
      .httpError ⟨403, "This request required permission."⟩
  ∧ validate_permission reqUser dbPermGrant 100 =
      .ok ⟨true, some 2, some 1, some 5, some ("R")⟩ :=
  ⟨(c2_grant_decides reqUser dbPermOnly 100 ⟨some 1, some false⟩ ("5") 5 ("R")
      permViewRow (by rfl) (by rfl) (by rfl) (by rfl) (by rfl) (by rfl)
      (by rfl)).1 (by rfl),
   (c2_grant_decides reqUser dbPermGrant 100 ⟨some 1, some false⟩ ("5") 5 ("R")
      permViewRow (by rfl) (by rfl) (by rfl) (by rfl) (by rfl) (by rfl)
      (by rfl)).2 ⟨1, 2, 1⟩ (by rfl)⟩

/-- C5 counterexample: a non-superuser request for a content type and
action with no permission row at all is answered 403, not 404: the empty
database yields status 403 with detail Permission not found. -/
theorem c5_counterexample :
    validate_permission reqUser emptyDb 100 =
      .httpError ⟨403, "Permission not found"⟩
  ∧ (403 : Nat) ≠ 404 :=
  ⟨rfl, by decide⟩

/-- C5 amended: when no permission row exists for the requested content
type and action, the non-superuser request is denied with HTTP 403 and
detail Permission not found — the same Forbidden status as the
missing-grant refusal, the two cases differing only in the detail
string. -/
theorem c5_amended_missing_permission_yields_403
    (req : Request) (db : DB) (now : Int) (payload : TokenPayload)
    (ct : String) (ctid : Int) (a : String)
    (hauth : validate_access_and_csrf req now = .ok payload)
    (hns : pyTruthy payload.super = false)
    (hct : req.x_content = some ct)
    (hn : intOfString? ct = some ctid)
    (ha : HTTP_METHOD_TO_CRUD_ACTION req.method = some a)
    (hp : db.content_permissions.find?
        (fun r => r.content_type_id == ctid && r.action == a) = none) :
    validate_permission req db now =
      .httpError ⟨403, "Permission not found"⟩
  ∧ (HttpError.mk 403 "Permission not found").status =
      (HttpError.mk 403 "This request required permission.").status := by
  have hne : (ct == "") = false := by
    cases hc : ct == "" with
    | false => rfl
    | true =>
        have : ct = "" := by simpa using hc
        subst this
        simp [intOfString?, digitsToNat?] at hn
  constructor
  · unfold validate_permission
    rw [hauth, hct]
    simp only [hne, ha, Bool.false_eq_true, if_false]
    simp only [hns, Bool.false_eq_true, if_false]
    rw [hn]
    dsimp only
    unfold check_user_permission
    rw [hp]
    rfl
  · rfl

/-- C5 amended witness: the request of the counterexample instantiates
the amended statement. -/
theorem c5_amended_witness :
    validate_permission reqUser emptyDb 100 =
      .httpError ⟨403, "Permission not found"⟩ :=
  (c5_amended_missing_permission_yields_403 reqUser emptyDb 100
    ⟨some 1, some false⟩ ("5") 5 ("R") (by rfl) (by rfl) (by rfl) (by rfl)
    (by rfl) (by rfl)).1

/-- A soft-deleted user row with id 7, deactivated at time 50. -/
def userDeleted : UserRow := ⟨7, "bob", "hash", false, none, some 50⟩

/-- A database whose only user is the soft-deleted user 7. -/
def dbDeleted : DB := ⟨[userDeleted], [], [], [], 1, 1⟩

/-- A refresh token for user 7, minted at time 0 with a 3600 second
lifetime. -/
def tokRefresh7 : Token := create_token ⟨some 7, some false⟩ 0 3600 true

/-- C4 counterexample: user 7 is soft-deleted, yet the refresh endpoint
still mints and returns a fresh access token for them instead of a
Forbidden response; and for a refresh token naming an absent user id the
endpoint lets the NoResultFound exception escape instead of answering
Forbidden. -/
theorem c4_counterexample :
    userDeleted.deleted_at = some 50
  ∧ Routers.refresh_route (some tokRefresh7) dbDeleted 100 =
      .ok (create_token ⟨some 7, some false⟩ 100
            (ACCESS_TOKEN_EXPIRE_MINUTES * 60) false)
  ∧ Routers.refresh_route (some tokRefresh7) emptyDb 100 =
      .uncaught ("NoResultFound") :=
  ⟨rfl, rfl, rfl⟩

/-- C4 amended: on a validly decoding refresh token the user is indeed
re-fetched by the user_id embedded in the claims, but an absent user makes
the uncaught NoResultFound exception escape (an internal error, not a
Forbidden response), and a present user — soft-deleted or not — receives a
brand-new access token minted from current user state. -/
theorem c4_amended_refetch_ignores_deactivation
    (tok : Token) (db : DB) (now : Int) (payload : TokenPayload) (uid : Int)
    (hdec : jwt_decode tok REFRESH_SECRET_KEY now = .ok payload)
    (huid : payload.user_id = some uid) :
    (get_user_by_id db uid = .error ("NoResultFound") →
        refresh_access_token tok db now = .uncaught ("NoResultFound"))
  ∧ (∀ u, get_user_by_id db uid = .ok u →
        refresh_access_token tok db now =
          .ok (create_token ⟨some u.id, some u.is_superuser⟩ now
                (ACCESS_TOKEN_EXPIRE_MINUTES * 60) false)) := by
  unfold refresh_access_token
  rw [hdec]
  dsimp only
  rw [huid]
  dsimp only
  constructor
  · intro h
    rw [h]
  · intro u h
    rw [h]
    rfl

/-- C4 amended witness: the refresh token for user 7 hits the uncaught
NoResultFound on the empty database and yields a fresh access token on
the database containing the soft-deleted user 7. -/
theorem c4_amended_witness :
    refresh_access_token tokRefresh7 emptyDb 100 = .uncaught ("NoResultFound")
  ∧ refresh_access_token tokRefresh7 dbDeleted 100 =
      .ok (create_token ⟨some 7, some false⟩ 100
            (ACCESS_TOKEN_EXPIRE_MINUTES * 60) false) :=
  ⟨(c4_amended_refetch_ignores_deactivation tokRefresh7 emptyDb 100
      ⟨some 7, some false⟩ 7 (by rfl) (by rfl)).1 (by rfl),
   (c4_amended_refetch_ignores_deactivation tokRefresh7 dbDeleted 100
      ⟨some 7, some false⟩ 7 (by rfl) (by rfl)).2 userDeleted (by rfl)⟩

/-- An active user alice with a stored hash. -/
def userAlice : UserRow := ⟨3, "alice", "hashA", false, none, none⟩

/-- A database whose only user is the active alice. -/
def dbAlice : DB := ⟨[userAlice], [], [], [], 1, 1⟩

/-- The same alice soft-deleted at time 20. -/
def userAliceDeleted : UserRow := ⟨3, "alice", "hashA", false, none, some 20⟩

/-- A database whose only user is the soft-deleted alice. -/
def dbAliceDeleted : DB := ⟨[userAliceDeleted], [], [], [], 1, 1⟩

/-- C7 counterexample: the login failure response is HTTP 404 with detail
Invalid credentials, not a 401 Unauthorized response: an unknown username
already shows the 404 status. -/
theorem c7_counterexample :
    Routers.login (fun _ _ => false) emptyDb ("alice") ("pw") 0 ("t") =
      .httpError ⟨404, "Invalid credentials"⟩
  ∧ (404 : Nat) ≠ 401 :=
  ⟨rfl, by decide⟩

/-- C7 amended: the three login failure causes — username absent among
non-deleted accounts, password mismatch against the stored hash, and the
username existing only on soft-deleted rows — all produce the identical
error response, HTTP 404 with detail Invalid credentials, so the response
does not distinguish an unknown user from a bad password and soft-deleted
accounts are excluded from the credential lookup. -/
theorem c7_amended_uniform_404_response
    (checkpw : String → String → Bool) (db : DB)
    (username password : String) (now : Int) (csrf : String) :
    (get_user_by_username db username = .error ("NoResultFound") →
        Routers.login checkpw db username password now csrf =
          .httpError ⟨404, "Invalid credentials"⟩)
  ∧ (∀ u, get_user_by_username db username = .ok u →
        checkpw password u.password = false →
        Routers.login checkpw db username password now csrf =
          .httpError ⟨404, "Invalid credentials"⟩)
  ∧ ((∀ u ∈ db.users, u.username = username → u.deleted_at ≠ none) →
        Routers.login checkpw db username password now csrf =
          .httpError ⟨404, "Invalid credentials"⟩) := by
  have hlookup : (∀ u ∈ db.users, u.username = username → u.deleted_at ≠ none) →
      get_user_by_username db username = .error ("NoResultFound") := by
    intro hall
    unfold get_user_by_username
    rw [List.find?_eq_none.mpr]
    intro x hx hpred
    have h1 : x.username = username := by
      have := (Bool.and_eq_true _ _).mp hpred
      simpa using this.1
    have h2 : x.deleted_at = none := by
      have := (Bool.and_eq_true _ _).mp hpred
      simpa using this.2
    exact hall x hx h1 h2
  refine ⟨?_, ?_, ?_⟩
  · intro h
    unfold Routers.login authenticate_user
    rw [h]
  · intro u hu hpw
    unfold Routers.login authenticate_user
    rw [hu]
    dsimp only
    rw [hpw]
    rfl
  · intro hall
    unfold Routers.login authenticate_user
    rw [hlookup hall]

/-- C7 amended witness: the unknown username, the wrong password against
the stored hash, and the soft-deleted alice (even with a correct
password) all answer 404 Invalid credentials. -/
theorem c7_amended_witness :
    Routers.login (fun _ _ => false) emptyDb ("alice") ("pw") 0 ("t") =
      .httpError ⟨404, "Invalid credentials"⟩
  ∧ Routers.login (fun _ _ => false) dbAlice ("alice") ("pw") 0 ("t") =
      .httpError ⟨404, "Invalid credentials"⟩
  ∧ Routers.login (fun _ _ => true) dbAliceDeleted ("alice") ("pw") 0 ("t") =
      .httpError ⟨404, "Invalid credentials"⟩ :=
  ⟨(c7_amended_uniform_404_response (fun _ _ => false) emptyDb ("alice") ("pw")
      0 ("t")).1 (by rfl),
   (c7_amended_uniform_404_response (fun _ _ => false) dbAlice ("alice") ("pw")
      0 ("t")).2.1 userAlice (by rfl) (by rfl),
   (c7_amended_uniform_404_response (fun _ _ => true) dbAliceDeleted ("alice")
      ("pw") 0 ("t")).2.2 (by decide)⟩

/-- C8: the verb-to-action mapping is exactly POST to C, GET to R, PUT and
PATCH to U, DELETE to D, and nothing else is mapped; a request whose verb
is unmapped is answered 400 Invalid HTTP method once the gate reaches the
verb check, and a request with an unmapped verb is never authorized under
any circumstances. -/
theorem c8_verb_mapping_and_bad_request :
    (HTTP_METHOD_TO_CRUD_ACTION ("POST") = some ("C")
      ∧ HTTP_METHOD_TO_CRUD_ACTION ("GET") = some ("R")
      ∧ HTTP_METHOD_TO_CRUD_ACTION ("PUT") = some ("U")
      ∧ HTTP_METHOD_TO_CRUD_ACTION ("PATCH") = some ("U")
      ∧ HTTP_METHOD_TO_CRUD_ACTION ("DELETE") = some ("D"))
  ∧ (∀ m : String, HTTP_METHOD_TO_CRUD_ACTION m ≠ none →
      m = "POST" ∨ m = "GET" ∨ m = "PUT" ∨ m = "PATCH" ∨ m = "DELETE")
  ∧ (∀ (req : Request) (db : DB) (now : Int) (payload : TokenPayload)
        (ct : String),
      validate_access_and_csrf req now = .ok payload →
      req.x_content = some ct → ct ≠ "" →
      HTTP_METHOD_TO_CRUD_ACTION req.method = none →
      validate_permission req db now =
        .httpError ⟨400, "Invalid HTTP method"⟩)
  ∧ (∀ (req : Request) (db : DB) (now : Int) (r : PermissionResponse),
      HTTP_METHOD_TO_CRUD_ACTION req.method = none →
      validate_permission req db now ≠ .ok r) := by
  refine ⟨⟨rfl, rfl, rfl, rfl, rfl⟩, ?_, ?_, ?_⟩
  · intro m h
    unfold HTTP_METHOD_TO_CRUD_ACTION at h
    split_ifs at h with h1 h2 h3 h4 h5
    · exact Or.inl (by simpa using h1)
    · exact Or.inr (Or.inl (by simpa using h2))
    · exact Or.inr (Or.inr (Or.inl (by simpa using h3)))
    · exact Or.inr (Or.inr (Or.inr (Or.inl (by simpa using h4))))
    · exact Or.inr (Or.inr (Or.inr (Or.inr (by simpa using h5))))
    · exact absurd rfl h
  · intro req db now payload ct hauth hct hne hmethod
    have hne2 : (ct == "") = false := by simpa using hne
    unfold validate_permission
    rw [hauth, hct]
    simp only [hne2, Bool.false_eq_true, if_false]
    rw [hmethod]
  · intro req db now r hmethod heq
    unfold validate_permission at heq
    split at heq
    · exact PyOutcome.noConfusion heq
    · split at heq
      · exact PyOutcome.noConfusion heq
      · split at heq
        · exact PyOutcome.noConfusion heq
        · rw [hmethod] at heq
          exact PyOutcome.noConfusion heq

/-- A non-superuser request using the unmapped verb HEAD. -/
def reqHead : Request := ⟨some tokUser, some ("c"), some ("c"), some ("5"), "HEAD"⟩

/-- C8 witness: the HEAD request with valid authentication and content
header is answered 400 and is not authorized. -/
theorem c8_witness :
    validate_permission reqHead emptyDb 100 =
      .httpError ⟨400, "Invalid HTTP method"⟩
  ∧ validate_permission reqHead emptyDb 100 ≠
      .ok ⟨true, none, some 1, some 5, some ("R")⟩ :=
  ⟨c8_verb_mapping_and_bad_request.2.2.1 reqHead emptyDb 100
      ⟨some 1, some false⟩ ("5") (by rfl) (by rfl) (by decide) (by rfl),
   c8_verb_mapping_and_bad_request.2.2.2 reqHead emptyDb 100
      ⟨true, none, some 1, some 5, some ("R")⟩ (by rfl)⟩

/-- C9: every create_content call creates exactly four permission rows,
one per action C, R, U, D in that order, each named the action's display
word followed by a space and the content type's name, each attached to the
new content type, and appends exactly those rows to the permission
table. -/
theorem c9_create_content_four_permissions
    (db : DB) (content_name : String) (icon : Option String) :
    ((create_content db content_name icon).2.2).length = 4
  ∧ ((create_content db content_name icon).2.2).map
      (fun p => (p.action, p.name, p.content_type_id)) =
      [(("C"), "Add " ++ content_name, db.next_content_id),
       (("R"), "View " ++ content_name, db.next_content_id),
       (("U"), "Update " ++ content_name, db.next_content_id),
       (("D"), "Delete " ++ content_name, db.next_content_id)]
  ∧ ((create_content db content_name icon).1).content_permissions =
      db.content_permissions ++ (create_content db content_name icon).2.2 := by
  refine ⟨rfl, rfl, ?_⟩
  simp [create_content, create_content_permission, CRUD_ACTIONS]

/-- Two active users for the password-change scenario. -/
def pwUserA : UserRow := ⟨1, "alice", "ha", false, none, none⟩

/-- The second user, target of the password change. -/
def pwUserB : UserRow := ⟨2, "bob", "hb", false, none, none⟩

/-- A database holding the two users. -/
def dbTwoUsers : DB := ⟨[pwUserA, pwUserB], [], [], [], 1, 1⟩

/-- C10: when the token payload carries no super key at all, the
other-user guard of update_user_password does not fire even though the
target user differs from the caller, so with a matching confirmation the
other user's password is rehashed and success is returned. -/
theorem c10_no_super_key_skips_other_user_guard
    (hash_password : String → String) (db : DB) (payload : TokenPayload)
    (data : UpdateUserPasswordSchema)
    (_hdiff : payload.user_id ≠ some data.user_id)
    (hnokey : payload.super = none)
    (hpw : data.password = data.confirm_password) :
    update_user_password hash_password db payload data =
      (.ok ("Password updated successfully."),
       { db with users := db.users.map (fun u =>
          if u.id == data.user_id then
            { u with password := hash_password data.password } else u) }) := by
  unfold update_user_password
  rw [if_neg, if_neg]
  · intro h
    exact h hpw
  · rw [hnokey]
    simp

/-- C10 witness: the payload of user 1 with no super key changes user 2's
password and gets a success message. -/
theorem c10_witness :
    update_user_password (fun s => s ++ "#h") dbTwoUsers ⟨some 1, none⟩
        ⟨2, "npw", "npw"⟩ =
      (.ok ("Password updated successfully."),
       { dbTwoUsers with users := dbTwoUsers.users.map (fun u =>
          if u.id == (2 : Int) then { u with password := "npw" ++ "#h" }
          else u) }) :=
  c10_no_super_key_skips_other_user_guard (fun s => s ++ "#h") dbTwoUsers
    ⟨some 1, none⟩ ⟨2, "npw", "npw"⟩ (by decide) rfl rfl

end Backend
